import Mathlib

/-!
Verification of the V2T voice-to-text utility core: the recording state
machine (`src/ui/main_window.py`, `src/ui/pages/home_page.py`), the audio
recorder (`src/core/audio_recorder.py`), the hotkey manager
(`src/core/hotkey_manager.py`), the transcription backends
(`src/core/groq_transcriber.py`, `src/core/whisper_transcriber.py`) and the
settings store (`src/services/settings.py`), shallowly embedded as pure
state-passing functions. External effects (the sounddevice stream, the
keyboard library, the Groq API, the faster-whisper model, wall-clock time)
are environments passed explicitly.
-/

namespace V2T

/-- A Python JSON-style settings value (`None`, int, bool or string). -/
inductive PyVal where
  | none
  | int (n : Int)
  | bool (b : Bool)
  | str (s : String)
deriving DecidableEq, Repr

/-- `DEFAULT_SETTINGS` from `src/utils/constants.py`. -/
def DEFAULT_SETTINGS : List (String × PyVal) :=
  [("mic_index", .none),
   ("language", .str "fr"),
   ("hotkey", .str "F8"),
   ("use_online", .bool true),
   ("auto_paste", .bool true),
   ("sound_enabled", .bool true),
   ("silence_detection_enabled", .bool false),
   ("silence_threshold_seconds", .int 3),
   ("theme", .str "dark")]

/-- The `SettingsManager._settings` dict, as a partial map from keys to values. -/
def SettingsStore := String → Option PyVal

/-- `SettingsManager.__init__` with no config file on disk: the dict starts as
a copy of `DEFAULT_SETTINGS`. -/
def SettingsManager.fresh : SettingsStore :=
  fun k => DEFAULT_SETTINGS.lookup k

/-- `SettingsManager.get`: `self._settings.get(key, default)`. -/
def SettingsManager.get (s : SettingsStore) (key : String) (default : PyVal) : PyVal :=
  match s key with
  | some v => v
  | none => default

/-- `SettingsManager.set`: `self._settings[key] = value` (the JSON auto-save
only mirrors the dict to disk and is not modelled). -/
def SettingsManager.set (s : SettingsStore) (key : String) (value : PyVal) : SettingsStore :=
  fun k => if k = key then some value else s k

/-- A sequence of `set` calls applied in order. -/
def SettingsManager.setAll (s : SettingsStore) (ops : List (String × PyVal)) : SettingsStore :=
  ops.foldl (fun st p => SettingsManager.set st p.1 p.2) s

/-! ## AudioRecorder (`src/core/audio_recorder.py`) -/

/-- One block of int16 mono samples delivered by the sounddevice stream. -/
abbrev Block := List Int

/-- The external audio subsystem: whether `sd.InputStream(device, ...)` opens
without raising for a given device index, whether `stream.stop(); stream.close()`
runs without raising, and the wall clock read by `time.time()`. -/
structure AudioEnv where
  openOk : Option Nat → Bool
  closeOk : Bool
  now : ℚ

/-- The `AudioRecorder` instance state. `openStreams` and `openAttempts` are
instrumentation: `openStreams` counts OS-level input streams currently open
(incremented exactly where `sd.InputStream(...).start()` runs, decremented
exactly where `stream.close()` runs), `openAttempts` logs the device index of
every `sd.InputStream` construction attempted. `silenceFired` counts
invocations of the registered `_on_silence_detected` callback. -/
structure RecorderState where
  deviceIndex : Option Nat
  frames : List Block
  isRecording : Bool
  streamOpen : Bool
  hasAudioCb : Bool
  hasSilenceCb : Bool
  silenceLimit : ℚ
  lastSoundTime : ℚ
  openStreams : Nat
  openAttempts : List (Option Nat)
  silenceFired : Nat
  visualEmits : List Block
deriving Repr

/-- `AudioRecorder.__init__(device_index)`: no stream, empty frame list, the
silence-detection fields at their defaults, no callbacks registered. -/
def AudioRecorder.new (dev : Option Nat) : RecorderState :=
  { deviceIndex := dev, frames := [], isRecording := false, streamOpen := false,
    hasAudioCb := false, hasSilenceCb := false, silenceLimit := 3,
    lastSoundTime := 0, openStreams := 0, openAttempts := [],
    silenceFired := 0, visualEmits := [] }

/-- `AudioRecorder.set_audio_callback`. -/
def AudioRecorder.setAudioCallback (s : RecorderState) : RecorderState :=
  { s with hasAudioCb := true }

/-- `AudioRecorder.set_silence_callback`. -/
def AudioRecorder.setSilenceCallback (s : RecorderState) : RecorderState :=
  { s with hasSilenceCb := true }

/-- `AudioRecorder.update_silence_threshold`. -/
def AudioRecorder.updateSilenceThreshold (s : RecorderState) (limit : ℚ) : RecorderState :=
  { s with silenceLimit := limit }

/-- `AudioRecorder._audio_callback(indata, ...)`: copies the block, appends it
to `_frames` when `_is_recording`, and forwards it to the visualization
callback when one is set. It reads none of the silence fields and never calls
`_on_silence_detected`, so `silenceFired` has no update site here. -/
def AudioRecorder.audioCallback (s : RecorderState) (b : Block) : RecorderState :=
  let s1 := if s.isRecording then { s with frames := s.frames ++ [b] } else s
  if s1.hasAudioCb then { s1 with visualEmits := s1.visualEmits ++ [b] } else s1

/-- `AudioRecorder.start()`: early-returns `True` when already recording;
otherwise resets `_frames`, sets `_is_recording` and `_last_sound_time`, then
constructs and starts the input stream. A raised exception is caught: the
method prints, clears `_is_recording` and returns `False` — with no second
attempt against any other device. -/
def AudioRecorder.start (env : AudioEnv) (s : RecorderState) : Bool × RecorderState :=
  if s.isRecording then (true, s)
  else
    let s1 := { s with frames := [], isRecording := true, lastSoundTime := env.now }
    let s2 := { s1 with openAttempts := s1.openAttempts ++ [s1.deviceIndex] }
    if env.openOk s2.deviceIndex then
      (true, { s2 with streamOpen := true, openStreams := s2.openStreams + 1 })
    else
      (false, { s2 with isRecording := false })

/-- `AudioRecorder.stop()`: returns `None` when not recording; otherwise
clears `_is_recording`, stops and closes the stream (an exception there is
caught and yields `None`, leaving the frames in place), then returns `None`
for an empty frame list or the concatenation of the frames. -/
def AudioRecorder.stop (env : AudioEnv) (s : RecorderState) : Option Block × RecorderState :=
  if s.isRecording then
    let s1 := { s with isRecording := false }
    if s1.streamOpen && !env.closeOk then (none, s1)
    else
      let s2 := if s1.streamOpen then
          { s1 with streamOpen := false, openStreams := s1.openStreams - 1 }
        else s1
      if s2.frames = [] then (none, s2)
      else (some s2.frames.flatten, { s2 with frames := [] })
  else (none, s)

/-! ## MainWindow / HomePage controller (`src/ui/main_window.py`,
`src/ui/pages/home_page.py`) -/

/-- UI calls the controller makes, logged in order of emission. -/
inductive UIEvent where
  | playSound
  | setRecording (b : Bool)
  | setTranscribing (b : Bool)
  | waveformIdle
  | waveformData (b : Block)
  | resultShown (ok : Bool)
deriving DecidableEq, Repr

/-- The window's controller state: `_is_recording` / `_is_transcribing` on
`MainWindow`, their twins on `HomePage`, the owned `AudioRecorder`, a count of
`_start_transcription` invocations and the log of UI calls. -/
structure MWState where
  mwRecording : Bool
  mwTranscribing : Bool
  homeRecording : Bool
  homeTranscribing : Bool
  recorder : RecorderState
  transcribeCalls : Nat
  uiEvents : List UIEvent
deriving Repr

/-- `MainWindow.__init__` + `_setup_audio(mic_index)`: both flags false, a
fresh recorder with the visualization callback attached. -/
def MainWindow.new (dev : Option Nat) : MWState :=
  { mwRecording := false, mwTranscribing := false,
    homeRecording := false, homeTranscribing := false,
    recorder := AudioRecorder.setAudioCallback (AudioRecorder.new dev),
    transcribeCalls := 0, uiEvents := [] }

/-- `MainWindow._start_recording`: guarded on both flags; plays the feedback
sound, flips `_is_recording`, updates the home page, starts the recorder and
ignores its boolean result. -/
def MainWindow.startRecording (env : AudioEnv) (s : MWState) : MWState :=
  if s.mwRecording || s.mwTranscribing then s
  else
    let s1 := { s with uiEvents := s.uiEvents ++ [UIEvent.playSound], mwRecording := true }
    let s2 := { s1 with homeRecording := true,
                        uiEvents := s1.uiEvents ++ [UIEvent.setRecording true] }
    { s2 with recorder := (AudioRecorder.start env s2.recorder).2 }

/-- `MainWindow._stop_recording`: guarded on `_is_recording`; plays the sound,
clears the flag, stops the recorder; with a non-`None`, non-empty buffer it
enters transcription (`_is_transcribing := True`, `set_transcribing(True)`,
`_start_transcription`), otherwise it only resets the waveform
(`update_waveform(None)`). -/
def MainWindow.stopRecording (env : AudioEnv) (s : MWState) : MWState :=
  if s.mwRecording then
    let s1 := { s with uiEvents := s.uiEvents ++ [UIEvent.playSound], mwRecording := false }
    let s2 := { s1 with homeRecording := false,
                        uiEvents := s1.uiEvents ++ [UIEvent.setRecording false] }
    let res := AudioRecorder.stop env s2.recorder
    let s3 := { s2 with recorder := res.2 }
    match res.1 with
    | some a =>
      if a.length > 0 then
        { s3 with mwTranscribing := true, homeTranscribing := true,
                  uiEvents := s3.uiEvents ++ [UIEvent.setTranscribing true],
                  transcribeCalls := s3.transcribeCalls + 1 }
      else { s3 with uiEvents := s3.uiEvents ++ [UIEvent.waveformIdle] }
    | none => { s3 with uiEvents := s3.uiEvents ++ [UIEvent.waveformIdle] }
  else s

/-- `MainWindow._toggle_recording` (the hotkey path): a toggle while
`_is_transcribing` returns immediately; otherwise it stops when recording and
starts when idle. -/
def MainWindow.toggleRecording (env : AudioEnv) (s : MWState) : MWState :=
  if s.mwTranscribing then s
  else if s.mwRecording then MainWindow.stopRecording env s
  else MainWindow.startRecording env s

/-- `HomePage._on_mic_click`: ignored while the page is transcribing;
otherwise flips the page flag, updates the page UI and emits
`recording_toggled`, which `MainWindow._on_recording_toggled` routes to
`_start_recording` / `_stop_recording`. -/
def HomePage.micClick (env : AudioEnv) (s : MWState) : MWState :=
  if s.homeTranscribing then s
  else
    let nr := !s.homeRecording
    let s1 := { s with homeRecording := nr,
                       uiEvents := s.uiEvents ++ [UIEvent.setRecording nr] }
    if nr then MainWindow.startRecording env s1
    else MainWindow.stopRecording env s1

/-- `MainWindow._on_transcription_result`: clears `_is_transcribing` on both
the window and (via `set_transcription_result`) the home page. -/
def MainWindow.onTranscriptionResult (s : MWState) (ok : Bool) : MWState :=
  { s with mwTranscribing := false, homeTranscribing := false,
           uiEvents := s.uiEvents ++ [UIEvent.resultShown ok] }

/-- The controller-visible events: a hotkey press (`_on_hotkey_main_thread`),
a mic-button click, a block arriving at the capture callback, and the
transcription worker finishing. -/
inductive Ev where
  | hotkey
  | micClick
  | deliver (b : Block)
  | result (ok : Bool)
deriving Repr

/-- One controller step. A delivered block goes through
`AudioRecorder._audio_callback`; `MainWindow._on_audio_data` then updates the
waveform only while `_is_recording`. -/
def step (env : AudioEnv) (s : MWState) : Ev → MWState
  | .hotkey => MainWindow.toggleRecording env s
  | .micClick => HomePage.micClick env s
  | .deliver b =>
    let s1 := { s with recorder := AudioRecorder.audioCallback s.recorder b }
    if s1.mwRecording then { s1 with uiEvents := s1.uiEvents ++ [UIEvent.waveformData b] }
    else s1
  | .result ok => MainWindow.onTranscriptionResult s ok

/-- A whole event trace. -/
def run (env : AudioEnv) (s : MWState) (evs : List Ev) : MWState :=
  evs.foldl (step env) s

/-! ## HotkeyManager (`src/core/hotkey_manager.py`) -/

/-- The `keyboard` library as an environment: whether `keyboard.add_hotkey` /
`keyboard.remove_hotkey` run without raising for a given combination. -/
structure KeyEnv where
  addOk : String → Bool
  removeOk : String → Bool

/-- The `HotkeyManager` state plus the keyboard library's own registration
table: `hotkeys` is the `_hotkeys` dict (callbacks as numeric ids),
`activeKeys` the `_active_keys` set, and `osHooks` the hooks actually
installed in the `keyboard` library by `add_hotkey` / removed by
`remove_hotkey`. -/
structure HotkeyState where
  hotkeys : List (String × Nat)
  activeKeys : List String
  osHooks : List (String × Nat)
deriving DecidableEq, Repr

/-- `HotkeyManager.__init__`. -/
def HotkeyManager.new : HotkeyState :=
  { hotkeys := [], activeKeys := [], osHooks := [] }

/-- The callbacks the `keyboard` library fires on a physical press of `k`:
every installed hook for that combination. -/
def HotkeyState.press (s : HotkeyState) (k : String) : List Nat :=
  (s.osHooks.filter (fun p => p.1 = k)).map (fun p => p.2)

/-- `HotkeyManager.register(hotkey, callback)`: inside a try block, removes an
existing registration for the same combination, then `keyboard.add_hotkey`;
on success records the callback in `_hotkeys` and the combination in
`_active_keys` and returns `True`. A raised exception is caught and the
method returns `False`, leaving whatever had already been mutated. -/
def HotkeyManager.register (env : KeyEnv) (s : HotkeyState) (k : String) (cb : Nat) :
    Bool × HotkeyState :=
  if s.activeKeys.contains k then
    if env.removeOk k then
      let s1 := { s with osHooks := s.osHooks.filter (fun p => ¬ p.1 = k) }
      if env.addOk k then
        (true, { s1 with osHooks := s1.osHooks ++ [(k, cb)],
                         hotkeys := (k, cb) :: s1.hotkeys.filter (fun p => ¬ p.1 = k),
                         activeKeys := s1.activeKeys })
      else (false, s1)
    else (false, s)
  else
    if env.addOk k then
      (true, { s with osHooks := s.osHooks ++ [(k, cb)],
                      hotkeys := (k, cb) :: s.hotkeys.filter (fun p => ¬ p.1 = k),
                      activeKeys := k :: s.activeKeys })
    else (false, s)

/-- `HotkeyManager.unregister(hotkey)`: when the combination is active,
`keyboard.remove_hotkey` then discard it from `_active_keys` and pop it from
`_hotkeys`, returning `True`; a raised exception is caught and returns
`False`; an inactive combination is a successful no-op. -/
def HotkeyManager.unregister (env : KeyEnv) (s : HotkeyState) (k : String) :
    Bool × HotkeyState :=
  if s.activeKeys.contains k then
    if env.removeOk k then
      (true, { s with osHooks := s.osHooks.filter (fun p => ¬ p.1 = k),
                      activeKeys := s.activeKeys.filter (fun x => ¬ x = k),
                      hotkeys := s.hotkeys.filter (fun p => ¬ p.1 = k) })
    else (false, s)
  else (true, s)

/-- `HotkeyManager.update_hotkey(old_key, new_key, callback)`: unregisters the
old combination first, then registers the new one and returns that result. -/
def HotkeyManager.updateHotkey (env : KeyEnv) (s : HotkeyState)
    (oldKey newKey : String) (cb : Nat) : Bool × HotkeyState :=
  HotkeyManager.register env (HotkeyManager.unregister env s oldKey).2 newKey cb

/-! ## Transcription backends (`src/core/transcriber.py`,
`src/core/groq_transcriber.py`, `src/core/whisper_transcriber.py`) -/

/-- The `TranscriptionResult` dataclass. -/
structure TranscriptionResult where
  text : String
  language : String
  duration : ℚ
  isOnline : Bool
  success : Bool
  error : Option String
deriving DecidableEq, Repr

/-- The world `GroqTranscriber.transcribe` touches: the `_api_key` attribute
(`None` when neither the argument nor the environment variable supplied one),
whether the `Groq` client can be constructed, whether the audio file exists,
the outcome of reading its WAV header (duration, or a raised exception's
message) and the outcome of the API call (transcribed text, or a raised
exception's message). -/
structure GroqEnv where
  apiKey : Option String
  clientOk : Bool
  fileExists : Bool
  waveRead : Except String ℚ
  apiCall : Except String String

/-- `GroqTranscriber.is_available`: `bool(self._api_key)` — false for `None`
and for the empty string. -/
def GroqTranscriber.isAvailable (env : GroqEnv) : Bool :=
  match env.apiKey with
  | none => false
  | some k => !(k = "")

/-- `GroqTranscriber.transcribe(audio_path, language)`: returns an error
result when unavailable or when the file is missing; inside the try block a
`None` client raises (message `"Impossible de créer le client Groq"`), then
the WAV header is read and the API called; every raised exception is caught
and converted to a failure result carrying `str(e)`. -/
def GroqTranscriber.transcribe (env : GroqEnv) (path lang : String) :
    TranscriptionResult :=
  if !GroqTranscriber.isAvailable env then
    { text := "", language := lang, duration := 0, isOnline := true,
      success := false, error := some "Clé API Groq non configurée" }
  else if !env.fileExists then
    { text := "", language := lang, duration := 0, isOnline := true,
      success := false, error := some ("Fichier audio introuvable: " ++ path) }
  else if !env.clientOk then
    { text := "", language := lang, duration := 0, isOnline := true,
      success := false, error := some "Impossible de créer le client Groq" }
  else
    match env.waveRead with
    | .error e =>
      { text := "", language := lang, duration := 0, isOnline := true,
        success := false, error := some e }
    | .ok dur =>
      match env.apiCall with
      | .error e =>
        { text := "", language := lang, duration := 0, isOnline := true,
          success := false, error := some e }
      | .ok t =>
        { text := t.trim, language := lang, duration := dur, isOnline := true,
          success := true, error := none }

/-- The world `WhisperTranscriber` touches: the outcome of importing
faster-whisper and constructing `WhisperModel` (unit, or the raised
exception's message as `_load_model` stores it in `_load_error`), whether the
audio file exists, and the outcome of `model.transcribe` (joined segment text
and duration, or a raised exception's message). -/
structure WhisperEnv where
  loadOutcome : Except String Unit
  fileExists : Bool
  inference : Except String (String × ℚ)

/-- The `WhisperTranscriber` singleton's mutable attributes. `loadAttempts`
is instrumentation counting entries into `_load_model`'s try block (each one
a fresh import/`WhisperModel` construction). -/
structure WhisperState where
  modelLoaded : Bool
  modelLoading : Bool
  loadError : Option String
  modelPresent : Bool
  loadAttempts : Nat
deriving DecidableEq, Repr

/-- `WhisperTranscriber.__init__` (first construction of the singleton). -/
def WhisperTranscriber.new : WhisperState :=
  { modelLoaded := false, modelLoading := false, loadError := none,
    modelPresent := false, loadAttempts := 0 }

/-- `WhisperTranscriber._load_model`: returns `True` at once when already
loaded; returns `False` at once when a load is already in progress (it does
not wait); otherwise sets `_model_loading`, attempts the import and model
construction, records success or the error message, clears `_model_loading`
in the `finally`, and returns whether the load succeeded. -/
def WhisperTranscriber.loadModel (env : WhisperEnv) (s : WhisperState) :
    Bool × WhisperState :=
  if s.modelLoaded then (true, s)
  else if s.modelLoading then (false, s)
  else
    let s1 := { s with modelLoading := true, loadAttempts := s.loadAttempts + 1 }
    match env.loadOutcome with
    | .ok _ =>
      (true, { s1 with modelPresent := true, modelLoaded := true,
                       loadError := none, modelLoading := false })
    | .error e =>
      (false, { s1 with loadError := some e, modelLoading := false })

/-- Python's `x or default` on an optional string: the default replaces both
`None` and the empty string. -/
def orElseStr (o : Option String) (default : String) : String :=
  match o with
  | some s => if s = "" then default else s
  | none => default

/-- `WhisperTranscriber.transcribe(audio_path, language)`: ensures the model
is loaded (a failed or in-progress load yields a failure result whose message
is `self._load_error or "Impossible de charger le modèle Whisper"`), checks
the file exists, then runs inference; a raised exception is caught and
converted to a failure result carrying `str(e)`. -/
def WhisperTranscriber.transcribe (env : WhisperEnv) (s : WhisperState)
    (path lang : String) : WhisperState × TranscriptionResult :=
  let afterLoad :=
    if !s.modelLoaded then
      let r := WhisperTranscriber.loadModel env s
      if !r.1 then
        (r.2, some (orElseStr r.2.loadError "Impossible de charger le modèle Whisper"))
      else (r.2, none)
    else (s, none)
  match afterLoad with
  | (s1, some msg) =>
    (s1, { text := "", language := lang, duration := 0, isOnline := false,
           success := false, error := some msg })
  | (s1, none) =>
    if !env.fileExists then
      (s1, { text := "", language := lang, duration := 0, isOnline := false,
             success := false, error := some ("Fichier audio introuvable: " ++ path) })
    else
      match env.inference with
      | .error e =>
        (s1, { text := "", language := lang, duration := 0, isOnline := false,
               success := false, error := some e })
      | .ok r =>
        (s1, { text := r.1, language := lang, duration := r.2, isOnline := false,
               success := true, error := none })

/-- The backend `MainWindow._start_transcription` dispatches to. -/
inductive Backend where
  | online
  | offline
deriving DecidableEq, Repr

/-- The backend choice in `MainWindow._start_transcription`:
`if use_online and groq_transcriber.is_available(): groq else whisper`. -/
def selectBackend (useOnline : Bool) (genv : GroqEnv) : Backend :=
  if useOnline && GroqTranscriber.isAvailable genv then .online else .offline

/-- The conditions under which `GroqTranscriber.transcribe` takes a failure
branch (missing/empty credentials, missing audio file, client construction
failure, a raised WAV-read or API exception). -/
def groqFailure (env : GroqEnv) : Prop :=
  GroqTranscriber.isAvailable env = false ∨ env.fileExists = false ∨
  env.clientOk = false ∨ (∃ e, env.waveRead = .error e) ∨
  (∃ e, env.apiCall = .error e)

/-- The conditions under which `WhisperTranscriber.transcribe` takes a
failure branch (model not loaded and the load does not succeed, missing
audio file, a raised inference exception). -/
def whisperFailure (env : WhisperEnv) (s : WhisperState) : Prop :=
  (s.modelLoaded = false ∧ (WhisperTranscriber.loadModel env s).1 = false) ∨
  env.fileExists = false ∨ (∃ e, env.inference = .error e)

/-! ## Concrete scenario inputs -/

/-- An audio environment in which every device opens and every close
succeeds. -/
def envAllOk : AudioEnv :=
  { openOk := fun _ => true, closeOk := true, now := 0 }

/-- The recorder used in the silence scenario: visualization and silence
callbacks registered, silence limit 3 s, started successfully. -/
def silenceScenarioRec : RecorderState :=
  (AudioRecorder.start envAllOk
    (AudioRecorder.updateSilenceThreshold
      (AudioRecorder.setSilenceCallback
        (AudioRecorder.setAudioCallback (AudioRecorder.new none))) 3)).2

/-- Four seconds of silent 1024-sample blocks at 16 kHz (63 blocks of
zeros). -/
def silentStream : List Block :=
  List.replicate 63 (List.replicate 1024 (0 : Int))

/-- A controller mid-recording whose recorder captured no frames. -/
def emptyStopState : MWState :=
  { MainWindow.new none with
    mwRecording := true,
    recorder := { AudioRecorder.setAudioCallback (AudioRecorder.new none) with
                  isRecording := true, streamOpen := true, openStreams := 1,
                  openAttempts := [none] } }

/-- An audio environment in which the configured device (index 5) fails to
open but the default device (`None`) would succeed. -/
def envC4 : AudioEnv :=
  { openOk := fun d => d.isNone, closeOk := true, now := 0 }

/-- A Groq environment with everything broken: no API key, no client, no
audio file, and raising WAV-read and API calls. -/
def genvBroken : GroqEnv :=
  { apiKey := none, clientOk := false, fileExists := false,
    waveRead := .error "entete WAV corrompue", apiCall := .error "connexion refusée" }

/-- A Whisper environment in which the load would succeed and inference works. -/
def wenvOk : WhisperEnv :=
  { loadOutcome := .ok (), fileExists := true, inference := .ok ("bonjour", 1) }

/-- A Whisper environment whose model load raises and whose audio file is
missing. -/
def wenvBroken : WhisperEnv :=
  { loadOutcome := .error "Dépendance manquante: faster_whisper",
    fileExists := false, inference := .error "inference cassée" }

/-- The Whisper singleton while `_load_model` is in progress on another
thread: `_model_loading` set, `_model_loaded` not yet. -/
def loadingState : WhisperState :=
  { modelLoaded := false, modelLoading := true, loadError := none,
    modelPresent := false, loadAttempts := 0 }

/-- The Whisper singleton after a successful load. -/
def loadedState : WhisperState :=
  { modelLoaded := true, modelLoading := false, loadError := none,
    modelPresent := true, loadAttempts := 1 }

/-- A hotkey manager with `F8` bound (callback id 0) and installed. -/
def hkState0 : HotkeyState :=
  { hotkeys := [("F8", 0)], activeKeys := ["F8"], osHooks := [("F8", 0)] }

/-- A keyboard environment in which removing succeeds but `add_hotkey` raises
for `F9` (and only `F9`). -/
def keyEnvFail9 : KeyEnv :=
  { addOk := fun k => k != "F9", removeOk := fun _ => true }

/-- The stream-ownership invariant: the recorder holds its stream object
exactly while `_is_recording`, and the number of OS-level open input streams
matches (1 while a stream is held, 0 otherwise). -/
def recInv (r : RecorderState) : Prop :=
  r.streamOpen = r.isRecording ∧
  r.openStreams = (if r.streamOpen then 1 else 0)

/-! ## Theorems -/

theorem audioCallback_fields (s : RecorderState) (b : Block) :
    (AudioRecorder.audioCallback s b).isRecording = s.isRecording ∧
    (AudioRecorder.audioCallback s b).streamOpen = s.streamOpen ∧
    (AudioRecorder.audioCallback s b).openStreams = s.openStreams ∧
    (AudioRecorder.audioCallback s b).silenceFired = s.silenceFired ∧
    (AudioRecorder.audioCallback s b).frames =
      (if s.isRecording then s.frames ++ [b] else s.frames) := by
  unfold AudioRecorder.audioCallback
  cases hr : s.isRecording <;> cases hc : s.hasAudioCb <;> simp [hr, hc]

theorem audioCallback_run (bs : List Block) (s : RecorderState) :
    ((bs.foldl AudioRecorder.audioCallback s).isRecording = s.isRecording ∧
     (bs.foldl AudioRecorder.audioCallback s).streamOpen = s.streamOpen ∧
     (bs.foldl AudioRecorder.audioCallback s).openStreams = s.openStreams ∧
     (bs.foldl AudioRecorder.audioCallback s).silenceFired = s.silenceFired) ∧
    (s.isRecording = true →
      (bs.foldl AudioRecorder.audioCallback s).frames = s.frames ++ bs) := by
  induction bs generalizing s with
  | nil => simp
  | cons b rest ih =>
    obtain ⟨h1, h2, h3, h4, h5⟩ := audioCallback_fields s b
    obtain ⟨⟨g1, g2, g3, g4⟩, g5⟩ := ih (AudioRecorder.audioCallback s b)
    refine ⟨⟨?_, ?_, ?_, ?_⟩, ?_⟩
    · simpa [h1] using g1
    · simpa [h2] using g2
    · simpa [h3] using g3
    · simpa [h4] using g4
    · intro hr
      have hrec : (AudioRecorder.audioCallback s b).isRecording = true := h1.trans hr
      have := g5 hrec
      simp only [List.foldl_cons] at *
      rw [this, h5, if_pos hr, List.append_assoc]
      simp

theorem recInv_start (env : AudioEnv) (r : RecorderState) (h : recInv r) :
    recInv (AudioRecorder.start env r).2 := by
  obtain ⟨h1, h2⟩ := h
  unfold AudioRecorder.start
  cases hr : r.isRecording with
  | true => simpa [hr] using ⟨h1, h2⟩
  | false =>
    have hso : r.streamOpen = false := by rw [h1, hr]
    have hos : r.openStreams = 0 := by rw [h2, hso]; rfl
    by_cases ho : env.openOk r.deviceIndex = true
    · simp [hr, ho, recInv, hos]
    · simp only [Bool.not_eq_true] at ho
      simp [hr, ho, recInv, hso, hos]

theorem recInv_stop (env : AudioEnv) (r : RecorderState)
    (h : recInv r) (hc : env.closeOk = true) :
    recInv (AudioRecorder.stop env r).2 := by
  obtain ⟨h1, h2⟩ := h
  unfold AudioRecorder.stop
  cases hr : r.isRecording with
  | false => simpa [hr] using ⟨h1, h2⟩
  | true =>
    have hso : r.streamOpen = true := by rw [h1, hr]
    have hos : r.openStreams = 1 := by rw [h2, hso]; rfl
    by_cases hf : r.frames = [] <;>
      simp [hr, hso, hc, recInv, hos, hf]

theorem recInv_callback (r : RecorderState) (b : Block) (h : recInv r) :
    recInv (AudioRecorder.audioCallback r b) := by
  obtain ⟨f1, f2, f3, _, _⟩ := audioCallback_fields r b
  obtain ⟨h1, h2⟩ := h
  exact ⟨by rw [f2, f1, h1], by rw [f3, f2, h2]⟩

theorem recInv_startRecording (env : AudioEnv) (s : MWState)
    (h : recInv s.recorder) :
    recInv (MainWindow.startRecording env s).recorder := by
  unfold MainWindow.startRecording
  by_cases hg : (s.mwRecording || s.mwTranscribing) = true
  · simpa [hg] using h
  · simpa [hg] using recInv_start env s.recorder h

theorem recInv_stopRecording (env : AudioEnv) (s : MWState)
    (h : recInv s.recorder) (hc : env.closeOk = true) :
    recInv (MainWindow.stopRecording env s).recorder := by
  unfold MainWindow.stopRecording
  by_cases hg : s.mwRecording = true
  · have hstop := recInv_stop env s.recorder h hc
    cases hres : (AudioRecorder.stop env s.recorder).1 with
    | none => simpa [hg, hres] using hstop
    | some a =>
      by_cases hl : a.length > 0 <;> simpa [hg, hres, hl] using hstop
  · simp only [Bool.not_eq_true] at hg
    simpa [hg] using h

theorem recInv_step (env : AudioEnv) (s : MWState) (ev : Ev)
    (h : recInv s.recorder) (hc : env.closeOk = true) :
    recInv (step env s ev).recorder := by
  cases ev with
  | hotkey =>
    unfold step MainWindow.toggleRecording
    by_cases ht : s.mwTranscribing = true
    · simpa [ht] using h
    · by_cases hr : s.mwRecording = true
      · simpa [ht, hr] using recInv_stopRecording env s h hc
      · simp only [Bool.not_eq_true] at ht hr
        simpa [ht, hr] using recInv_startRecording env s h
  | micClick =>
    unfold step HomePage.micClick
    by_cases ht : s.homeTranscribing = true
    · simpa [ht] using h
    · cases hr : s.homeRecording with
      | false =>
        simp only [Bool.not_eq_true] at ht
        simpa [ht, hr] using recInv_startRecording env
          { s with homeRecording := true,
                   uiEvents := s.uiEvents ++ [UIEvent.setRecording true] } h
      | true =>
        simp only [Bool.not_eq_true] at ht
        simpa [ht, hr] using recInv_stopRecording env
          { s with homeRecording := false,
                   uiEvents := s.uiEvents ++ [UIEvent.setRecording false] } h hc
  | deliver b =>
    unfold step
    by_cases hr : s.mwRecording = true <;>
      simpa [hr] using recInv_callback s.recorder b h
  | result ok =>
    unfold step MainWindow.onTranscriptionResult
    simpa using h

theorem recInv_run (env : AudioEnv) (s : MWState) (evs : List Ev)
    (h : recInv s.recorder) (hc : env.closeOk = true) :
    recInv (run env s evs).recorder := by
  induction evs generalizing s with
  | nil => simpa [run] using h
  | cons ev rest ih =>
    have := ih (step env s ev) (recInv_step env s ev h hc)
    simpa [run, List.foldl_cons] using this

/-- C1: a toggle delivered while the controller is transcribing — through the
hotkey path (`MainWindow._toggle_recording`) or the mic button
(`HomePage._on_mic_click`) — leaves the whole state unchanged (no recording
started, nothing stopped); and over every event trace from the initial state,
at most one input stream is open at any instant. -/
theorem toggle_single_session :
    (∀ (env : AudioEnv) (s : MWState), s.mwTranscribing = true →
      MainWindow.toggleRecording env s = s) ∧
    (∀ (env : AudioEnv) (s : MWState), s.homeTranscribing = true →
      HomePage.micClick env s = s) ∧
    (∀ (env : AudioEnv) (dev : Option Nat) (evs : List Ev), env.closeOk = true →
      (run env (MainWindow.new dev) evs).recorder.openStreams ≤ 1) := by
  refine ⟨?_, ?_, ?_⟩
  · intro env s h
    unfold MainWindow.toggleRecording
    simp [h]
  · intro env s h
    unfold HomePage.micClick
    simp [h]
  · intro env dev evs hc
    have hinit : recInv (MainWindow.new dev).recorder := by
      constructor <;> rfl
    obtain ⟨_, h2⟩ := recInv_run env (MainWindow.new dev) evs hinit hc
    rw [h2]
    by_cases hso : (run env (MainWindow.new dev) evs).recorder.streamOpen = true
    · simp [hso]
    · simp only [Bool.not_eq_true] at hso
      simp [hso]

/-- C1 witness: a transcribing state absorbs both toggle paths, and a
two-toggle trace from the initial state keeps at most one stream open. -/
theorem toggle_single_session_witness :
    MainWindow.toggleRecording envAllOk
      { MainWindow.new none with mwTranscribing := true } =
      { MainWindow.new none with mwTranscribing := true } ∧
    HomePage.micClick envAllOk
      { MainWindow.new none with homeTranscribing := true } =
      { MainWindow.new none with homeTranscribing := true } ∧
    (run envAllOk (MainWindow.new none) [Ev.hotkey, Ev.hotkey]).recorder.openStreams ≤ 1 :=
  ⟨toggle_single_session.1 envAllOk _ rfl,
   toggle_single_session.2.1 envAllOk _ rfl,
   toggle_single_session.2.2 envAllOk none [Ev.hotkey, Ev.hotkey] rfl⟩

/-- C7: from a non-recording state, a successful `start()` followed by any
sequence of capture-callback deliveries and then `stop()` yields exactly the
ordered concatenation of the delivered blocks, and the explicit empty marker
`None` when no block was delivered. -/
theorem buffer_integrity (env : AudioEnv) (r : RecorderState) (bs : List Block)
    (h0 : r.isRecording = false)
    (h1 : env.openOk r.deviceIndex = true)
    (h2 : env.closeOk = true) :
    (AudioRecorder.start env r).1 = true ∧
    (AudioRecorder.stop env
        (bs.foldl AudioRecorder.audioCallback (AudioRecorder.start env r).2)).1 =
      (if bs = [] then none else some bs.flatten) := by
  unfold AudioRecorder.start
  simp only [h0, Bool.false_eq_true, if_false, h1, if_true, true_and]
  set r1 : RecorderState :=
    { r with frames := [], isRecording := true, lastSoundTime := env.now,
             openAttempts := r.openAttempts ++ [r.deviceIndex],
             streamOpen := true, openStreams := r.openStreams + 1 } with hr1
  obtain ⟨⟨g1, g2, _, _⟩, g5⟩ := audioCallback_run bs r1
  have hfr : (bs.foldl AudioRecorder.audioCallback r1).frames = bs := by
    have := g5 (by rw [hr1])
    simpa [hr1] using this
  unfold AudioRecorder.stop
  rw [g1, g2]
  simp only [hr1, h2]
  by_cases hbs : bs = []
  · simp [hbs, hfr]
  · simp [hbs, hfr]

/-- C7 witness: starting a fresh recorder, delivering two blocks and stopping
returns their concatenation; delivering none returns `None`. -/
theorem buffer_integrity_witness :
    (AudioRecorder.start envAllOk (AudioRecorder.new none)).1 = true ∧
    (AudioRecorder.stop envAllOk
        ([[1, 2], [3]].foldl AudioRecorder.audioCallback
          (AudioRecorder.start envAllOk (AudioRecorder.new none)).2)).1 =
      (if ([[1, 2], [3]] : List Block) = [] then none
       else some ([[1, 2], [3]] : List Block).flatten) :=
  buffer_integrity envAllOk (AudioRecorder.new none) [[1, 2], [3]] rfl rfl rfl

/-- C2: `_audio_callback` never invokes the registered silence callback: over
every delivery sequence, from every recorder state — silence detection
enabled or not — the count of `_on_silence_detected` invocations stays
unchanged; in particular a started recorder with the silence callback
registered and limit 3 s that receives 4 s of all-zero blocks has fired it 0
times (not once, as the spec requires). -/
theorem silence_callback_never_fires :
    (∀ (s : RecorderState) (bs : List Block),
      (bs.foldl AudioRecorder.audioCallback s).silenceFired = s.silenceFired) ∧
    (silentStream.foldl AudioRecorder.audioCallback silenceScenarioRec).silenceFired
      = 0 := by
  have huni : ∀ (s : RecorderState) (bs : List Block),
      (bs.foldl AudioRecorder.audioCallback s).silenceFired = s.silenceFired :=
    fun s bs => (audioCallback_run bs s).1.2.2.2
  refine ⟨huni, ?_⟩
  rw [huni]
  rfl

theorem stop_with_empty_frames (env : AudioEnv) (r : RecorderState)
    (hj : r.frames.flatten = []) :
    (AudioRecorder.stop env r).1 = none ∨ (AudioRecorder.stop env r).1 = some [] := by
  unfold AudioRecorder.stop
  cases hr : r.isRecording with
  | false => left; simp [hr]
  | true =>
    cases hso : r.streamOpen with
    | false =>
      by_cases hf : r.frames = []
      · left; simp [hr, hso, hf]
      · right; simp [hr, hso, hf, hj]
    | true =>
      cases hcC : env.closeOk with
      | false => left; simp [hr, hso, hcC]
      | true =>
        by_cases hf : r.frames = []
        · left; simp [hr, hso, hcC, hf]
        · right; simp [hr, hso, hcC, hf, hj]

/-- C3: a toggle-off whose accumulated buffer is empty (no frames, or frames
of zero total length) returns the controller directly to idle: the
transcription worker is not invoked, `_is_transcribing` stays false, and the
UI is told about the empty recording (`update_waveform(None)` after the
recording indicators are cleared). -/
theorem empty_stop_returns_idle (env : AudioEnv) (s t : MWState)
    (ht : t = MainWindow.toggleRecording env s)
    (htr : s.mwTranscribing = false)
    (hrec : s.mwRecording = true)
    (hj : s.recorder.frames.flatten = []) :
    t.mwRecording = false ∧ t.mwTranscribing = false ∧ t.homeRecording = false ∧
    t.transcribeCalls = s.transcribeCalls ∧
    t.uiEvents = s.uiEvents ++
      [UIEvent.playSound, UIEvent.setRecording false, UIEvent.waveformIdle] := by
  subst ht
  unfold MainWindow.toggleRecording
  simp only [htr, Bool.false_eq_true, if_false, hrec, if_true]
  unfold MainWindow.stopRecording
  simp only [hrec, if_true]
  rcases stop_with_empty_frames env s.recorder hj with h | h <;>
    simp [h, htr]

/-- C3 witness: stopping `emptyStopState` (recording, zero frames) returns to
idle with no transcription call and the empty-recording waveform reset. -/
theorem empty_stop_returns_idle_witness :
    (MainWindow.toggleRecording envAllOk emptyStopState).mwRecording = false ∧
    (MainWindow.toggleRecording envAllOk emptyStopState).mwTranscribing = false ∧
    (MainWindow.toggleRecording envAllOk emptyStopState).homeRecording = false ∧
    (MainWindow.toggleRecording envAllOk emptyStopState).transcribeCalls =
      emptyStopState.transcribeCalls ∧
    (MainWindow.toggleRecording envAllOk emptyStopState).uiEvents =
      emptyStopState.uiEvents ++
        [UIEvent.playSound, UIEvent.setRecording false, UIEvent.waveformIdle] :=
  empty_stop_returns_idle envAllOk emptyStopState _ rfl rfl rfl rfl

/-- C4 counterexample: with the configured device (index 5) failing to open
and the default device available, `_start_recording` makes exactly one open
attempt — no retry against the default device is ever made — the recorder is
left not recording, and the controller does not return to idle: its
`_is_recording` flag stays true with no error surfaced. -/
theorem device_retry_counterexample :
    envC4.openOk (some 5) = false ∧
    envC4.openOk none = true ∧
    (MainWindow.startRecording envC4 (MainWindow.new (some 5))).recorder.openAttempts
      = [some 5] ∧
    (MainWindow.startRecording envC4 (MainWindow.new (some 5))).recorder.isRecording
      = false ∧
    (MainWindow.startRecording envC4 (MainWindow.new (some 5))).mwRecording = true :=
  ⟨rfl, rfl, rfl, rfl, rfl⟩

/-- C4 as amended: a device-open failure at start of recording is not
retried against any fallback device — exactly one open attempt is made,
`start()` returns `False`, and `MainWindow._start_recording` ignores that
result: no error is surfaced (the UI log gains only the feedback sound and
the recording indicator) and the window's `_is_recording` flag stays true
while the recorder records nothing. -/
theorem device_open_no_retry (env : AudioEnv) (s : MWState)
    (h1 : s.mwRecording = false)
    (h2 : s.mwTranscribing = false)
    (h3 : s.recorder.isRecording = false)
    (h4 : env.openOk s.recorder.deviceIndex = false) :
    (MainWindow.startRecording env s).recorder.openAttempts
      = s.recorder.openAttempts ++ [s.recorder.deviceIndex] ∧
    (AudioRecorder.start env s.recorder).1 = false ∧
    (MainWindow.startRecording env s).recorder.isRecording = false ∧
    (MainWindow.startRecording env s).recorder.openStreams = s.recorder.openStreams ∧
    (MainWindow.startRecording env s).mwRecording = true ∧
    (MainWindow.startRecording env s).uiEvents
      = s.uiEvents ++ [UIEvent.playSound, UIEvent.setRecording true] := by
  unfold MainWindow.startRecording AudioRecorder.start
  simp [h1, h2, h3, h4]

/-- C4 amended-claim witness: the single-attempt behaviour at the concrete
failing-device scenario. -/
theorem device_open_no_retry_witness :
    (MainWindow.startRecording envC4 (MainWindow.new (some 5))).recorder.openAttempts
      = (MainWindow.new (some 5)).recorder.openAttempts ++
        [(MainWindow.new (some 5)).recorder.deviceIndex] ∧
    (AudioRecorder.start envC4 (MainWindow.new (some 5)).recorder).1 = false ∧
    (MainWindow.startRecording envC4 (MainWindow.new (some 5))).recorder.isRecording
      = false ∧
    (MainWindow.startRecording envC4 (MainWindow.new (some 5))).recorder.openStreams
      = (MainWindow.new (some 5)).recorder.openStreams ∧
    (MainWindow.startRecording envC4 (MainWindow.new (some 5))).mwRecording = true ∧
    (MainWindow.startRecording envC4 (MainWindow.new (some 5))).uiEvents
      = (MainWindow.new (some 5)).uiEvents ++
        [UIEvent.playSound, UIEvent.setRecording true] :=
  device_open_no_retry envC4 (MainWindow.new (some 5)) rfl rfl rfl rfl

/-- C10: `set(k, v)` then `get(k, d)` returns `v` for every default `d`; `set`
changes no other key; and `get(k0, d)` on a key never set and absent from the
defaults returns `d`. -/
theorem settings_roundtrip (s : SettingsStore) (k k' k0 : String) (v d d' d0 : PyVal)
    (ops : List (String × PyVal))
    (hne : k' ≠ k)
    (hops : ∀ p ∈ ops, p.1 ≠ k0)
    (hdef : DEFAULT_SETTINGS.lookup k0 = none) :
    SettingsManager.get (SettingsManager.set s k v) k d = v ∧
    SettingsManager.get (SettingsManager.set s k v) k' d' = SettingsManager.get s k' d' ∧
    SettingsManager.get (SettingsManager.setAll SettingsManager.fresh ops) k0 d0 = d0 := by
  refine ⟨?_, ?_, ?_⟩
  · simp [SettingsManager.get, SettingsManager.set]
  · simp [SettingsManager.get, SettingsManager.set, hne]
  · have main : ∀ (l : List (String × PyVal)) (st : SettingsStore),
        (∀ p ∈ l, p.1 ≠ k0) → st k0 = none →
        SettingsManager.setAll st l k0 = none := by
      intro l
      induction l with
      | nil => intro st _ h0; simpa [SettingsManager.setAll] using h0
      | cons p rest ih =>
        intro st hl h0
        have hp : p.1 ≠ k0 := hl p (by simp)
        have hrest : ∀ q ∈ rest, q.1 ≠ k0 := fun q hq => hl q (by simp [hq])
        have : SettingsManager.set st p.1 p.2 k0 = none := by
          have hne0 : ¬ k0 = p.1 := fun h => hp h.symm
          simp [SettingsManager.set, hne0, h0]
        simpa [SettingsManager.setAll] using ih (SettingsManager.set st p.1 p.2) hrest this
    have h0 : SettingsManager.fresh k0 = none := by
      simpa [SettingsManager.fresh] using hdef
    simp [SettingsManager.get, main ops SettingsManager.fresh hops h0]

/-- C10 witness: setting `language` then reading it back returns the stored
value for an arbitrary default; `hotkey` is untouched; a key absent from the
defaults and never set falls back to the supplied default. -/
theorem settings_roundtrip_witness :
    SettingsManager.get (SettingsManager.set SettingsManager.fresh "language" (.str "en"))
      "language" (.str "zz") = .str "en" ∧
    SettingsManager.get (SettingsManager.set SettingsManager.fresh "language" (.str "en"))
      "hotkey" (.str "F1") =
      SettingsManager.get SettingsManager.fresh "hotkey" (.str "F1") ∧
    SettingsManager.get
      (SettingsManager.setAll SettingsManager.fresh [("language", .str "en")])
      "no_such_key" (.int 7) = .int 7 :=
  settings_roundtrip SettingsManager.fresh "language" "hotkey" "no_such_key"
    (.str "en") (.str "zz") (.str "F1") (.int 7) [("language", .str "en")]
    (by decide) (by decide) (by decide)


/-- C6: the online backend is selected iff `use_online` is set and the Groq
backend reports itself available; in every other case — in particular when
the online backend is unavailable while `use_online` is true — the offline
backend is selected. -/
theorem backend_selection (useOnline : Bool) (genv : GroqEnv) :
    (selectBackend useOnline genv = Backend.online ↔
      (useOnline = true ∧ GroqTranscriber.isAvailable genv = true)) ∧
    (selectBackend useOnline genv = Backend.offline ↔
      ¬(useOnline = true ∧ GroqTranscriber.isAvailable genv = true)) := by
  cases hu : useOnline <;> cases ha : GroqTranscriber.isAvailable genv <;>
    simp [selectBackend, hu, ha]

theorem file_msg_ne_empty (p : String) : ("Fichier audio introuvable: " ++ p) ≠ "" := by
  intro h
  have hl := congrArg String.length h
  simp [String.length_append] at hl
  exact absurd hl.1 (by decide)

theorem orElseStr_ne_empty (o : Option String) (d : String) (hd : d ≠ "") :
    orElseStr o d ≠ "" := by
  unfold orElseStr
  cases o with
  | none => exact hd
  | some s =>
    by_cases hs : s = ""
    · simpa [hs] using hd
    · simpa [hs] using hs

/-- C5: every failure branch of both backends — missing or empty credentials,
missing audio file, client-creation failure, a raised WAV-read, API or
inference exception, a failed or in-progress model load — produces a
`TranscriptionResult` with `success = false` carrying a non-empty error
message (assuming raised exceptions stringify non-empty); no failure escapes
as an exception, both `transcribe` embeddings being total functions into
`TranscriptionResult`. -/
theorem backend_failure_never_escapes
    (genv : GroqEnv) (path lang : String)
    (wenv : WhisperEnv) (ws : WhisperState) (wpath wlang : String)
    (hg1 : ∀ e, genv.waveRead = Except.error e → e ≠ "")
    (hg2 : ∀ e, genv.apiCall = Except.error e → e ≠ "")
    (hw1 : ∀ e, wenv.inference = Except.error e → e ≠ "") :
    (groqFailure genv →
      (GroqTranscriber.transcribe genv path lang).success = false ∧
      ∃ m, (GroqTranscriber.transcribe genv path lang).error = some m ∧ m ≠ "") ∧
    (whisperFailure wenv ws →
      (WhisperTranscriber.transcribe wenv ws wpath wlang).2.success = false ∧
      ∃ m, (WhisperTranscriber.transcribe wenv ws wpath wlang).2.error = some m ∧
        m ≠ "") := by
  constructor
  · intro hfail
    unfold GroqTranscriber.transcribe
    cases hav : GroqTranscriber.isAvailable genv with
    | false => exact ⟨by simp [hav], by simp [hav]⟩
    | true =>
      cases hfe : genv.fileExists with
      | false =>
        exact ⟨by simp [hav, hfe], "Fichier audio introuvable: " ++ path,
          by simp [hav, hfe], file_msg_ne_empty path⟩
      | true =>
        cases hcl : genv.clientOk with
        | false => exact ⟨by simp [hav, hfe, hcl], by simp [hav, hfe, hcl]⟩
        | true =>
          cases hwr : genv.waveRead with
          | error e =>
            exact ⟨by simp [hav, hfe, hcl, hwr], e, by simp [hav, hfe, hcl, hwr],
              hg1 e hwr⟩
          | ok dur =>
            cases hac : genv.apiCall with
            | error e =>
              exact ⟨by simp [hav, hfe, hcl, hwr, hac], e,
                by simp [hav, hfe, hcl, hwr, hac], hg2 e hac⟩
            | ok t =>
              rcases hfail with h | h | h | ⟨e, h⟩ | ⟨e, h⟩
              · rw [hav] at h; cases h
              · rw [hfe] at h; cases h
              · rw [hcl] at h; cases h
              · rw [hwr] at h; cases h
              · rw [hac] at h; cases h
  · intro hfail
    unfold WhisperTranscriber.transcribe
    cases hml : ws.modelLoaded with
    | false =>
      cases hld : (WhisperTranscriber.loadModel wenv ws).1 with
      | false =>
        refine ⟨by simp [hml, hld],
          orElseStr (WhisperTranscriber.loadModel wenv ws).2.loadError
            "Impossible de charger le modèle Whisper",
          by simp [hml, hld], orElseStr_ne_empty _ _ (by decide)⟩
      | true =>
        cases hfe : wenv.fileExists with
        | false =>
          exact ⟨by simp [hml, hld, hfe], "Fichier audio introuvable: " ++ wpath,
            by simp [hml, hld, hfe], file_msg_ne_empty wpath⟩
        | true =>
          cases hinf : wenv.inference with
          | error e =>
            exact ⟨by simp [hml, hld, hfe, hinf], e,
              by simp [hml, hld, hfe, hinf], hw1 e hinf⟩
          | ok r =>
            rcases hfail with ⟨_, h⟩ | h | ⟨e, h⟩
            · rw [hld] at h; cases h
            · rw [hfe] at h; cases h
            · rw [hinf] at h; cases h
    | true =>
      cases hfe : wenv.fileExists with
      | false =>
        exact ⟨by simp [hml, hfe], "Fichier audio introuvable: " ++ wpath,
          by simp [hml, hfe], file_msg_ne_empty wpath⟩
      | true =>
        cases hinf : wenv.inference with
        | error e =>
          exact ⟨by simp [hml, hfe, hinf], e, by simp [hml, hfe, hinf], hw1 e hinf⟩
        | ok r =>
          rcases hfail with ⟨h, _⟩ | h | ⟨e, h⟩
          · rw [hml] at h; cases h
          · rw [hfe] at h; cases h
          · rw [hinf] at h; cases h

/-- C5 witness: with every Groq dependency broken and a Whisper load raising
on a missing file, both backends return failure results with non-empty
messages. -/
theorem backend_failure_never_escapes_witness :
    ((GroqTranscriber.transcribe genvBroken "out.wav" "fr").success = false ∧
      ∃ m, (GroqTranscriber.transcribe genvBroken "out.wav" "fr").error = some m ∧
        m ≠ "") ∧
    ((WhisperTranscriber.transcribe wenvBroken WhisperTranscriber.new
        "out.wav" "fr").2.success = false ∧
      ∃ m, (WhisperTranscriber.transcribe wenvBroken WhisperTranscriber.new
        "out.wav" "fr").2.error = some m ∧ m ≠ "") := by
  have h := backend_failure_never_escapes genvBroken "out.wav" "fr"
    wenvBroken WhisperTranscriber.new "out.wav" "fr"
    (by intro e he; cases he; decide)
    (by intro e he; cases he; decide)
    (by intro e he; cases he; decide)
  exact ⟨h.1 (Or.inl rfl), h.2 (Or.inr (Or.inl rfl))⟩

/-- C9 counterexample: a transcription request arriving while the model load
is in progress (`_model_loading = True`, `_model_loaded = False`) does not
wait for the load: it fails immediately with a model-load error result and
leaves the state untouched (no load attempted) — even in an environment in
which the load would succeed. -/
theorem lazy_load_wait_counterexample :
    (WhisperTranscriber.transcribe wenvOk loadingState "out.wav" "fr").2.success
      = false ∧
    (WhisperTranscriber.transcribe wenvOk loadingState "out.wav" "fr").2.error
      = some "Impossible de charger le modèle Whisper" ∧
    (WhisperTranscriber.transcribe wenvOk loadingState "out.wav" "fr").1
      = loadingState :=
  ⟨rfl, rfl, rfl⟩

/-- C9 as amended: once the model is loaded, every further `_load_model` call
returns success immediately with the state unchanged (no reload); and a
transcription request arriving while a load is in progress does not trigger a
duplicate load — but it does not wait either: it returns a failure result
(`_load_error or "Impossible de charger le modèle Whisper"`) with the state,
including the attempt count, unchanged. -/
theorem lazy_load_idempotent (env env2 : WhisperEnv) (s s2 : WhisperState)
    (path lang : String)
    (h1 : s.modelLoaded = true)
    (h2 : s2.modelLoaded = false)
    (h3 : s2.modelLoading = true) :
    WhisperTranscriber.loadModel env s = (true, s) ∧
    (WhisperTranscriber.transcribe env2 s2 path lang).2.success = false ∧
    (WhisperTranscriber.transcribe env2 s2 path lang).2.error
      = some (orElseStr s2.loadError "Impossible de charger le modèle Whisper") ∧
    (WhisperTranscriber.transcribe env2 s2 path lang).1 = s2 := by
  have hload : WhisperTranscriber.loadModel env s = (true, s) := by
    unfold WhisperTranscriber.loadModel
    simp [h1]
  have hload2 : WhisperTranscriber.loadModel env2 s2 = (false, s2) := by
    unfold WhisperTranscriber.loadModel
    simp [h2, h3]
  refine ⟨hload, ?_, ?_, ?_⟩ <;>
    simp [WhisperTranscriber.transcribe, h2, hload2]

/-- C9 amended-claim witness: the loaded singleton absorbs a second load
call; the loading singleton rejects a request without waiting. -/
theorem lazy_load_idempotent_witness :
    WhisperTranscriber.loadModel wenvOk loadedState = (true, loadedState) ∧
    (WhisperTranscriber.transcribe wenvOk loadingState "in.wav" "en").2.success
      = false ∧
    (WhisperTranscriber.transcribe wenvOk loadingState "in.wav" "en").2.error
      = some (orElseStr loadingState.loadError
          "Impossible de charger le modèle Whisper") ∧
    (WhisperTranscriber.transcribe wenvOk loadingState "in.wav" "en").1
      = loadingState :=
  lazy_load_idempotent wenvOk wenvOk loadedState loadingState "in.wav" "en"
    rfl rfl rfl

theorem contains_filter_ne (l : List String) (k : String) :
    (l.filter (fun x => ¬ x = k)).contains k = false := by
  induction l with
  | nil => rfl
  | cons a rest ih =>
    by_cases h : a = k
    · simp [h, ih]
    · have h2 : ¬ k = a := fun hk => h hk.symm
      simp [h, h2, ih]

theorem press_filter_ne (l : List (String × Nat)) (k : String)
    (g : String × Nat → Bool) :
    ((l.filter (fun p => ¬ p.1 = k)).filter g).filter (fun p => p.1 = k) = [] := by
  induction l with
  | nil => rfl
  | cons a rest ih =>
    by_cases h : a.1 = k
    · simpa [h] using ih
    · by_cases hg : g a = true <;> simp [h, hg, ih] <;>
        exact fun x y _ hk _ => hk

theorem press_filter_ne_plain (l : List (String × Nat)) (k : String) :
    (l.filter (fun p => ¬ p.1 = k)).filter (fun p => p.1 = k) = [] := by
  induction l with
  | nil => rfl
  | cons a rest ih => by_cases h : a.1 = k <;> simp [h, ih]

/-- C8 counterexample: with `F8` bound and `keyboard.add_hotkey` raising for
`F9`, `update_hotkey("F8", "F9", cb)` returns `False` and leaves NO binding
active: `F8` has already been unregistered, so a press of `F8` triggers
nothing — the previous binding does not remain active. -/
theorem hotkey_rebind_counterexample :
    (HotkeyManager.updateHotkey keyEnvFail9 hkState0 "F8" "F9" 0).1 = false ∧
    (HotkeyManager.updateHotkey keyEnvFail9 hkState0 "F8" "F9" 0).2.activeKeys = [] ∧
    (HotkeyManager.updateHotkey keyEnvFail9 hkState0 "F8" "F9" 0).2.press "F8" = [] :=
  ⟨rfl, rfl, rfl⟩

/-- C8 as amended: `update_hotkey` unregisters the old binding before
attempting the new one, so when registering the new binding fails the update
returns `False` and the old binding is no longer active — a press of the old
combination fires no callback; the action stays unbound until a later
successful registration. -/
theorem hotkey_rebind_unbinds_old (env : KeyEnv) (s : HotkeyState)
    (oldKey newKey : String) (cb : Nat)
    (h1 : s.activeKeys.contains oldKey = true)
    (h2 : env.removeOk oldKey = true)
    (h3 : env.addOk newKey = false) :
    (HotkeyManager.updateHotkey env s oldKey newKey cb).1 = false ∧
    (HotkeyManager.updateHotkey env s oldKey newKey cb).2.activeKeys.contains oldKey
      = false ∧
    (HotkeyManager.updateHotkey env s oldKey newKey cb).2.press oldKey = [] := by
  unfold HotkeyManager.updateHotkey HotkeyManager.unregister
  simp only [h1, h2, if_true]
  unfold HotkeyManager.register
  set s1 : HotkeyState :=
    { s with osHooks := s.osHooks.filter (fun p => ¬ p.1 = oldKey),
             activeKeys := s.activeKeys.filter (fun x => ¬ x = oldKey),
             hotkeys := s.hotkeys.filter (fun p => ¬ p.1 = oldKey) } with hs1
  by_cases hc : s1.activeKeys.contains newKey = true
  · by_cases hrm : env.removeOk newKey = true
    · simp only [hc, hrm, if_true, h3, Bool.false_eq_true, if_false]
      refine ⟨by trivial, ?_, ?_⟩
      · simpa [hs1] using contains_filter_ne s.activeKeys oldKey
      · simpa [hs1, HotkeyState.press] using
          press_filter_ne s.osHooks oldKey (fun p => ¬ p.1 = newKey)
    · simp only [hc, if_true, hrm, Bool.not_eq_true] at *
      simp only [hrm, Bool.false_eq_true, if_false]
      refine ⟨by trivial, ?_, ?_⟩
      · simpa [hs1] using contains_filter_ne s.activeKeys oldKey
      · simpa [hs1, HotkeyState.press] using press_filter_ne_plain s.osHooks oldKey
  · simp only [Bool.not_eq_true] at hc
    simp only [hc, Bool.false_eq_true, if_false, h3]
    refine ⟨by trivial, ?_, ?_⟩
    · simpa [hs1] using contains_filter_ne s.activeKeys oldKey
    · simpa [hs1, HotkeyState.press] using press_filter_ne_plain s.osHooks oldKey

/-- C8 amended-claim witness: after the failed rebind from `F8` to `F9`, the
update reports failure and `F8` no longer triggers. -/
theorem hotkey_rebind_unbinds_old_witness :
    (HotkeyManager.updateHotkey keyEnvFail9 hkState0 "F8" "F9" 7).1 = false ∧
    (HotkeyManager.updateHotkey keyEnvFail9 hkState0 "F8" "F9" 7).2.activeKeys.contains
      "F8" = false ∧
    (HotkeyManager.updateHotkey keyEnvFail9 hkState0 "F8" "F9" 7).2.press "F8" = [] :=
  hotkey_rebind_unbinds_old keyEnvFail9 hkState0 "F8" "F9" 7 rfl rfl rfl

end V2T
